import Mathlib

/-!
Shallow embedding of the YOLO annotation backend
(`backend/services/project_service.py`, `backend/services/file_service.py`,
`backend/main.py`, `backend/models.py`) and proofs about its access-control,
annotation-storage, YOLO-export and upload logic.

The relational state is modelled as lists of rows; HTTP failures are the
numeric status codes the code raises (`Except Nat`).  Nondeterministic
`uuid.uuid4()` identifier generation is modelled by passing the generated
identifiers in as explicit arguments.  Python `float` box coordinates are
modelled as rationals (the spec states the round-trip law "exact over
rationals"); the `:.6f` float formatting is modelled as rounding the rational
to six decimal places, which agrees with CPython on every value appearing in
the claims (none is a rounding tie).
-/

namespace YoloBackend

/-- Model of `models.ImageStatus`. -/
inductive ImageStatus where
  | pending
  | inProgress
  | completed
deriving DecidableEq, Repr

/-- Model of `models.User` (the fields the services read). `role` is compared against
the string literal `"admin"` in the code, so it is kept as a string. -/
structure User where
  id : String
  role : String
deriving DecidableEq, Repr

/-- Model of `models.Project` (the fields the services read). -/
structure Project where
  id : String
  name : String
  created_by : String
deriving DecidableEq, Repr

/-- Model of `models.Image` (the fields the services read).  `width`/`height` are
nullable integer columns. -/
structure Image where
  id : String
  project_id : String
  name : String
  status : ImageStatus
  width : Option Int
  height : Option Int
deriving DecidableEq, Repr

/-- Model of `models.Annotation` (the fields the services read).  The box columns are
SQL floats, modelled as rationals. -/
structure Annotation where
  id : String
  image_id : String
  class_id : Int
  class_name : String
  color : String
  x : ℚ
  y : ℚ
  width : ℚ
  height : ℚ
  created_by : String
deriving DecidableEq, Repr

/-- Model of `schemas.AnnotationCreate`: the request body for one annotation. -/
structure AnnotationCreate where
  class_id : Int
  class_name : String
  color : String
  x : ℚ
  y : ℚ
  width : ℚ
  height : ℚ
deriving DecidableEq, Repr

/-- The relational database: one list of rows per table.
`project_assignments` is the association table, rows `(project_id, user_id)`. -/
structure DB where
  users : List User
  projects : List Project
  project_assignments : List (String × String)
  images : List Image
  annotations : List Annotation
deriving DecidableEq, Repr

/-- Query `db.query(Project).filter(Project.id == project_id).first()`. -/
def findProject (db : DB) (projectId : String) : Option Project :=
  db.projects.find? (fun p => p.id == projectId)

/-- Query `db.query(User).filter(User.id == user_id).first()`. -/
def findUser (db : DB) (userId : String) : Option User :=
  db.users.find? (fun u => u.id == userId)

/-- Query `db.query(Image).filter(Image.id == image_id).first()`. -/
def findImage (db : DB) (imageId : String) : Option Image :=
  db.images.find? (fun i => i.id == imageId)

/-- The assignment-row lookup both services use:
`db.query(project_assignments).filter(project_id == ..., user_id == ...).first()`
tested for being non-`None`. -/
def isAssigned (db : DB) (projectId userId : String) : Bool :=
  db.project_assignments.any (fun a => a.1 == projectId && a.2 == userId)

/-- Query `db.query(Annotation).filter(Annotation.image_id == image_id).all()`. -/
def annotationsFor (db : DB) (imageId : String) : List Annotation :=
  db.annotations.filter (fun a => a.image_id == imageId)

/-- Model of `ProjectService.get_project`: 404 when the project row is missing; for a
non-admin caller, 403 unless an assignment row for (project, user) exists. -/
def getProject (db : DB) (projectId : String) (u : User) : Except Nat Project :=
  match findProject db projectId with
  | none => .error 404
  | some project =>
    if u.role != "admin" then
      if isAssigned db projectId u.id then .ok project else .error 403
    else .ok project

/-- Model of `FileService._get_accessible_image`: 404 when the image row is missing;
for a non-admin caller, 403 unless an assignment row for the image's project
and the user exists. -/
def getAccessibleImage (db : DB) (imageId : String) (u : User) : Except Nat Image :=
  match findImage db imageId with
  | none => .error 404
  | some image =>
    if u.role != "admin" then
      if isAssigned db image.project_id u.id then .ok image else .error 403
    else .ok image

/-- Model of `FileService.get_annotations`: access check, then the filtered query. -/
def getAnnotations (db : DB) (imageId : String) (u : User) :
    Except Nat (List Annotation) :=
  match getAccessibleImage db imageId u with
  | .error e => .error e
  | .ok _ => .ok (annotationsFor db imageId)

/-- Convert one `AnnotationCreate` plus a generated id into an `Annotation`
row, as the loop body of `FileService.save_annotations` does. -/
def buildAnnotation (imageId : String) (createdBy : String)
    (newId : String) (a : AnnotationCreate) : Annotation :=
  { id := newId
    image_id := imageId
    class_id := a.class_id
    class_name := a.class_name
    color := a.color
    x := a.x
    y := a.y
    width := a.width
    height := a.height
    created_by := createdBy }

/-- Model of `FileService.save_annotations` (called by `POST /images/{id}/annotations`
in `main.py` with no access check): 404 when the image row is missing;
otherwise delete the image's annotation rows, insert the new ones built from
the request (ids from `newIds`, one fresh uuid per annotation), and set the
image's status to completed when the new list is non-empty.  Returns the new
database and the inserted rows. -/
def saveAnnotations (db : DB) (imageId : String) (anns : List AnnotationCreate)
    (newIds : List String) (createdBy : String) :
    Except Nat (DB × List Annotation) :=
  match findImage db imageId with
  | none => .error 404
  | some image =>
    let kept := db.annotations.filter (fun a => !(a.image_id == imageId))
    let inserted := (newIds.zip anns).map
      (fun p => buildAnnotation imageId createdBy p.1 p.2)
    let images' :=
      if anns.isEmpty then db.images
      else db.images.map
        (fun i => if i.id == image.id then { i with status := .completed } else i)
    .ok ({ db with annotations := kept ++ inserted, images := images' }, inserted)

/-- Left-pad a decimal string with zeros to six digits, for the fractional
part of `:.6f` formatting. -/
def pad6 (s : String) : String :=
  String.mk (List.replicate (6 - s.length) '0') ++ s

/-- Model of CPython `f"{v:.6f}"` on the rational model of the float `v`:
round `v * 10^6` to the nearest integer and print it with six digits after
the decimal point.  (CPython rounds the binary float half-to-even; no value
in the claims is a tie, so the two agree there.) -/
def fmt6 (q : ℚ) : String :=
  let n : ℤ := round (q * 1000000)
  let sign := if n < 0 then "-" else ""
  let m : ℕ := n.natAbs
  sign ++ toString (m / 1000000) ++ "." ++ pad6 (toString (m % 1000000))

/-- Line 321 of `file_service.py`: `center_x = (ann.x + ann.width / 2) / image.width`. -/
def centerX (x w W : ℚ) : ℚ := (x + w / 2) / W

/-- Line 322 of `file_service.py`: `center_y = (ann.y + ann.height / 2) / image.height`. -/
def centerY (y h H : ℚ) : ℚ := (y + h / 2) / H

/-- Line 323 of `file_service.py`: `norm_width = ann.width / image.width`. -/
def normWidth (w W : ℚ) : ℚ := w / W

/-- Line 324 of `file_service.py`: `norm_height = ann.height / image.height`. -/
def normHeight (h H : ℚ) : ℚ := h / H

/-- One line of `FileService.download_annotations` output:
`f"{ann.class_id} {center_x:.6f} {center_y:.6f} {norm_width:.6f} {norm_height:.6f}"`. -/
def yoloLine (ann : Annotation) (W H : ℚ) : String :=
  toString ann.class_id ++ " " ++ fmt6 (centerX ann.x ann.width W) ++ " " ++
    fmt6 (centerY ann.y ann.height H) ++ " " ++
    fmt6 (normWidth ann.width W) ++ " " ++ fmt6 (normHeight ann.height H)

/-- Python truthiness of `image.width and image.height`: both dimensions
non-null and non-zero. -/
def dimsTruthy (image : Image) : Bool :=
  match image.width, image.height with
  | some w, some h => w != 0 && h != 0
  | _, _ => false

/-- The `yolo_lines` loop of `FileService.download_annotations`: one line per
annotation of the image, emitted only under `if image.width and image.height`
(Python truthiness: a `None` or `0` dimension skips the annotation). -/
def yoloLines (db : DB) (image : Image) : List String :=
  (annotationsFor db image.id).filterMap (fun ann =>
    match image.width, image.height with
    | some w, some h =>
      if w != 0 && h != 0 then some (yoloLine ann (w : ℚ) (h : ℚ)) else none
    | _, _ => none)

/-- Model of `FileService.download_annotations`: access check, then 404 when
the image has no annotation rows, else the newline-joined YOLO lines (the
content of the file the endpoint serves). -/
def downloadAnnotations (db : DB) (imageId : String) (u : User) :
    Except Nat String :=
  match getAccessibleImage db imageId u with
  | .error e => .error e
  | .ok image =>
    let annotations := annotationsFor db imageId
    if annotations.isEmpty then .error 404
    else .ok (String.intercalate "\n" (yoloLines db image))

/-- Model of `ProjectService.create_project`: insert the project row and, when
the creator's user row exists, append an assignment row for the creator
(`project.assigned_users.append(creator)` guarded by `if creator:`).
`projectId` stands for the generated `uuid.uuid4()`. -/
def createProject (db : DB) (projectId : String) (name : String)
    (createdBy : String) : DB × Project :=
  let project : Project := { id := projectId, name := name, created_by := createdBy }
  let assignments :=
    match findUser db createdBy with
    | some creator => db.project_assignments ++ [(projectId, creator.id)]
    | none => db.project_assignments
  ({ db with projects := db.projects ++ [project],
             project_assignments := assignments }, project)

/-- Model of `ProjectService.assign_user`: 404 when the project or user row is
missing; when already assigned, return `assigned = true` without touching the
table; otherwise append the assignment row and return `assigned = true`. -/
def assignUser (db : DB) (projectId userId : String) : Except Nat (DB × Bool) :=
  match findProject db projectId with
  | none => .error 404
  | some _ =>
    match findUser db userId with
    | none => .error 404
    | some user =>
      if isAssigned db projectId user.id then .ok (db, true)
      else .ok ({ db with project_assignments :=
                    db.project_assignments ++ [(projectId, user.id)] }, true)

/-- Model of `ProjectService.unassign_user`: 404 when the project row is
missing; 400 when `userId` is the project's creator (checked before anything
else); otherwise remove the assignment row when the user exists and is
assigned, and return `assigned = false` either way. -/
def unassignUser (db : DB) (projectId userId : String) : Except Nat (DB × Bool) :=
  match findProject db projectId with
  | none => .error 404
  | some project =>
    if project.created_by == userId then .error 400
    else
      let db' :=
        match findUser db userId with
        | none => db
        | some user =>
          if isAssigned db projectId user.id then
            let remaining := db.project_assignments.filter
              (fun a => !(a.1 == projectId && a.2 == user.id))
            { db with project_assignments := remaining }
          else db
      .ok (db', false)

/-- One file of an upload request: the declared metadata plus the outcomes of
the two effectful probes the code runs per file (`writeOk`: the disk write
succeeded; `dims`: the PIL dimension probe, `none` when it failed). -/
structure UploadFileReq where
  filename : String
  content_type : Option String
  writeOk : Bool
  dims : Option (Int × Int)
deriving DecidableEq, Repr

/-- Model of `pathlib.Path(name).suffix`: the final extension including its
dot, empty for a bare name or a leading-dot-only name. -/
def pathSuffix (name : String) : String :=
  match name.splitOn "." with
  | [] => ""
  | [_] => ""
  | ["", _] => ""
  | parts => "." ++ parts.getLastD ""

/-- Line 70-71 of `file_service.py`:
`storage_filename = f"{image_id}{Path(file.filename).suffix.lower()}"`. -/
def storageFilename (imageId : String) (filename : String) : String :=
  imageId ++ (pathSuffix filename).toLower

/-- The per-file loop of `FileService.upload_images`, each file paired with
its generated `uuid.uuid4()` id.  Returns (paths written to disk, filenames
recorded in `failed_files`, staged image rows), each in loop order.  A file
is rejected — recorded as failed without aborting the batch — when its
declared content type is `None` or does not start with `"image/"`, or when
its disk write fails; a failed dimension probe is tolerated (`width`/`height`
stay `None`). -/
def processUploadFiles (projectId : String)
    (files : List (UploadFileReq × String)) :
    List String × List String × List Image :=
  match files with
  | [] => ([], [], [])
  | (f, newId) :: rest =>
    let (paths, failed, recs) := processUploadFiles projectId rest
    let reject := (paths, f.filename :: failed, recs)
    match f.content_type with
    | none => reject
    | some ct =>
      if !ct.startsWith "image/" then reject
      else if !f.writeOk then reject
      else
        let path := "storage/images/" ++ projectId ++ "/" ++
          storageFilename newId f.filename
        let row : Image :=
          { id := newId
            project_id := projectId
            name := f.filename
            status := .pending
            width := f.dims.map Prod.fst
            height := f.dims.map Prod.snd }
        (path :: paths, failed, row :: recs)

/-- The state `FileService.upload_images` leaves behind: the database, the
set of files on disk, the HTTP result (the committed rows or an error
status), and the per-file `failed_files` report. -/
structure UploadOutcome where
  db : DB
  disk : List String
  result : Except Nat (List Image)
  failedFiles : List String
deriving Repr

/-- Model of `FileService.upload_images`: 404 when the project row is missing;
run the per-file loop; when at least one row was staged, commit
(`commitOk = true`: rows appended, files kept) or roll back
(`commitOk = false`: no rows persisted, every path written in this batch
unlinked from disk, HTTP 500); when no row was staged no commit is attempted
and the request reports the empty list alongside the per-file failures. -/
def uploadImages (db : DB) (disk : List String) (projectId : String)
    (files : List (UploadFileReq × String)) (commitOk : Bool) : UploadOutcome :=
  match findProject db projectId with
  | none => { db := db, disk := disk, result := .error 404, failedFiles := [] }
  | some _ =>
    let (paths, failed, recs) := processUploadFiles projectId files
    if recs.isEmpty then
      { db := db, disk := disk ++ paths, result := .ok [], failedFiles := failed }
    else if commitOk then
      { db := { db with images := db.images ++ recs }, disk := disk ++ paths,
        result := .ok recs, failedFiles := failed }
    else
      { db := db, disk := (disk ++ paths).filter (fun p => !(paths.contains p)),
        result := .error 500, failedFiles := failed }

/-! ### Helper lemmas -/

/-- An element returned by `List.find?` satisfies the predicate. -/
theorem find?_sat {α : Type} {l : List α} {p : α → Bool} {a : α}
    (h : l.find? p = some a) : p a = true :=
  List.find?_some h

/-- A `findProject` hit has the queried id. -/
theorem findProject_id {db : DB} {pid : String} {project : Project}
    (h : findProject db pid = some project) : project.id = pid := by
  have := find?_sat h
  simpa using this

/-- A `findImage` hit has the queried id. -/
theorem findImage_id {db : DB} {iid : String} {image : Image}
    (h : findImage db iid = some image) : image.id = iid := by
  have := find?_sat h
  simpa using this

/-- A `findUser` hit has the queried id. -/
theorem findUser_id {db : DB} {uid : String} {user : User}
    (h : findUser db uid = some user) : user.id = uid := by
  have := find?_sat h
  simpa using this

/-! ### Example rows used by witnesses and counterexamples -/

/-- An annotator user. -/
def uAnn1 : User := { id := "u1", role := "annotator" }

/-- A second annotator user. -/
def uAnn2 : User := { id := "u2", role := "annotator" }

/-- An admin user. -/
def uAdmin : User := { id := "adm", role := "admin" }

/-- A project created by `u1`. -/
def pOne : Project := { id := "p1", name := "proj", created_by := "u1" }

/-- An image of project `p1`, 100×100 pixels. -/
def iOne : Image :=
  { id := "i1", project_id := "p1", name := "photo.jpg", status := .pending
    width := some 100, height := some 100 }

/-- A stored annotation on `i1`: box (0, 0, 50, 100). -/
def aStored : Annotation :=
  { id := "a1", image_id := "i1", class_id := 0, class_name := "person"
    color := "#ff0000", x := 0, y := 0, width := 50, height := 100
    created_by := "u1" }

/-- A database in which the creator `u1` of `p1` is NOT in the assigned-user
set (the association table is empty). -/
def dbCreatorUnassigned : DB :=
  { users := [uAnn1, uAnn2], projects := [pOne], project_assignments := []
    images := [iOne], annotations := [aStored] }

/-- A database in which `u1` (the creator) is assigned to `p1` — the state
`create_project` actually leaves — and `u2` is unrelated to `p1`. -/
def dbMain : DB :=
  { users := [uAnn1, uAnn2], projects := [pOne]
    project_assignments := [("p1", "u1")]
    images := [iOne], annotations := [aStored] }

/-! ### C1 -/

/-- C1, counterexample: the claim says a creator who is not in the
assigned-user set is still authorized, but `ProjectService.get_project`
checks only the assignment table — the annotator `u1`, creator of `p1` yet
absent from the assignment table, receives 403 rather than success. -/
theorem c1_creator_not_assigned_forbidden :
    uAnn1.role = "annotator" ∧
    (findProject dbCreatorUnassigned "p1").map Project.created_by = some uAnn1.id ∧
    isAssigned dbCreatorUnassigned "p1" uAnn1.id = false ∧
    getProject dbCreatorUnassigned "p1" uAnn1 = .error 403 :=
  ⟨rfl, rfl, rfl, rfl⟩

/-- C1, amended: for a non-admin caller, each project-scoped read (the
project itself via `get_project`, its images and annotations via
`_get_accessible_image` / `get_annotations`) succeeds iff the caller is in
the project's assigned-user set, and signals 403 otherwise; being the
creator confers no access by itself. -/
theorem c1_annotator_reads_iff_assigned (db : DB) (u : User)
    (hu : u.role ≠ "admin") :
    (∀ pid project, findProject db pid = some project →
      getProject db pid u =
        (if isAssigned db pid u.id then .ok project else .error 403)) ∧
    (∀ iid image, findImage db iid = some image →
      getAccessibleImage db iid u =
        (if isAssigned db image.project_id u.id then .ok image else .error 403)) ∧
    (∀ iid image, findImage db iid = some image →
      getAnnotations db iid u =
        (if isAssigned db image.project_id u.id then .ok (annotationsFor db iid)
         else .error 403)) := by
  have hbne : (u.role != "admin") = true := by
    simpa using hu
  refine ⟨?_, ?_, ?_⟩
  · intro pid project hp
    simp only [getProject, hp, hbne, if_true]
  · intro iid image hi
    simp only [getAccessibleImage, hi, hbne, if_true]
  · intro iid image hi
    simp only [getAnnotations, getAccessibleImage, hi, hbne, if_true]
    by_cases h : isAssigned db image.project_id u.id <;> simp [h]

/-- C1, witness: instantiating the amended theorem for the annotator `u2`. -/
theorem c1_annotator_reads_iff_assigned_witness :
    uAnn2.role ≠ "admin" ∧
    ((∀ pid project, findProject dbMain pid = some project →
      getProject dbMain pid uAnn2 =
        (if isAssigned dbMain pid uAnn2.id then .ok project else .error 403)) ∧
    (∀ iid image, findImage dbMain iid = some image →
      getAccessibleImage dbMain iid uAnn2 =
        (if isAssigned dbMain image.project_id uAnn2.id then .ok image
         else .error 403)) ∧
    (∀ iid image, findImage dbMain iid = some image →
      getAnnotations dbMain iid uAnn2 =
        (if isAssigned dbMain image.project_id uAnn2.id then
           .ok (annotationsFor dbMain iid)
         else .error 403))) :=
  ⟨by decide, c1_annotator_reads_iff_assigned dbMain uAnn2 (by decide)⟩

/-! ### C2 -/

/-- An annotation request body: box (0, 0, 50, 100). -/
def acOne : AnnotationCreate :=
  { class_id := 0, class_name := "person", color := "#ff0000"
    x := 0, y := 0, width := 50, height := 100 }

/-- C2, evaluation at the failing input: in `dbMain` the annotator `u2` is
neither the creator of `p1` nor assigned to it, and the reads correctly
signal 403 — but `POST /images/i1/annotations` (`main.save_annotations`
calling `FileService.save_annotations` with no access check) succeeds and
persists `u2`'s annotation set, where the claim requires 403. -/
theorem c2_unassigned_annotator_can_save :
    uAnn2.role = "annotator" ∧
    pOne.created_by ≠ uAnn2.id ∧
    isAssigned dbMain "p1" uAnn2.id = false ∧
    getProject dbMain "p1" uAnn2 = .error 403 ∧
    getAnnotations dbMain "i1" uAnn2 = .error 403 ∧
    (∃ dbOut, saveAnnotations dbMain "i1" [acOne] ["n1"] uAnn2.id =
        .ok (dbOut, [ buildAnnotation "i1" uAnn2.id "n1" acOne]) ∧
      annotationsFor dbOut "i1" = [ buildAnnotation "i1" uAnn2.id "n1" acOne]) :=
  ⟨rfl, by decide, rfl, rfl, rfl, _, rfl, rfl⟩

/-! ### C4 -/

/-- C4: over the rationals the export transform is invertible — for positive
image dimensions, `center_x·W − w/2 = x` and `center_y·H − h/2 = y` where
`center_x`/`center_y` are the normalized centers `download_annotations`
computes. -/
theorem c4_normalization_round_trip (x y w h W H : ℚ)
    (hW : 0 < W) (hH : 0 < H) :
    centerX x w W * W - w / 2 = x ∧ centerY y h H * H - h / 2 = y := by
  constructor
  · rw [centerX, div_mul_cancel₀ _ (ne_of_gt hW)]
    ring
  · rw [centerY, div_mul_cancel₀ _ (ne_of_gt hH)]
    ring

/-- C4, witness: the round trip at box (3, 7, 50, 100) on a 100×200 image. -/
theorem c4_normalization_round_trip_witness :
    (0 : ℚ) < 100 ∧ (0 : ℚ) < 200 ∧
    (centerX 3 50 100 * 100 - 50 / 2 = 3 ∧ centerY 7 100 200 * 200 - 100 / 2 = 7) :=
  ⟨by norm_num, by norm_num,
    c4_normalization_round_trip 3 7 50 100 100 200 (by norm_num) (by norm_num)⟩

/-! ### C6 -/

/-- C6: when an accessible image has zero stored annotation rows, the export
signals 404 instead of producing an empty file. -/
theorem c6_empty_export_not_found (db : DB) (iid : String) (u : User)
    (image : Image) (hacc : getAccessibleImage db iid u = .ok image)
    (hnone : annotationsFor db iid = []) :
    downloadAnnotations db iid u = .error 404 := by
  simp [downloadAnnotations, hacc, hnone]

/-- A database whose image `i1` has no annotation rows. -/
def dbNoAnnotations : DB :=
  { users := [uAnn1, uAnn2], projects := [pOne]
    project_assignments := [("p1", "u1")]
    images := [iOne], annotations := [] }

/-- C6, witness: exporting the annotation-less image `i1` as admin yields 404. -/
theorem c6_empty_export_not_found_witness :
    getAccessibleImage dbNoAnnotations "i1" uAdmin = .ok iOne ∧
    annotationsFor dbNoAnnotations "i1" = [] ∧
    downloadAnnotations dbNoAnnotations "i1" uAdmin = .error 404 :=
  ⟨rfl, rfl, c6_empty_export_not_found dbNoAnnotations "i1" uAdmin iOne rfl rfl⟩

/-! ### C7 -/

/-- C7: assignment and unassignment are idempotent — re-assigning an
already-assigned user succeeds with `assigned = true` and leaves the
database (hence the association table) unchanged; unassigning a
never-assigned non-creator succeeds with `assigned = false` and leaves the
database unchanged; unassigning the creator is rejected with 400 regardless
of any assignment state. -/
theorem c7_assignment_idempotent (db : DB) (pid : String) (project : Project)
    (hp : findProject db pid = some project) :
    (∀ uid user, findUser db uid = some user → isAssigned db pid uid = true →
      assignUser db pid uid = .ok (db, true)) ∧
    (∀ uid, project.created_by ≠ uid → isAssigned db pid uid = false →
      unassignUser db pid uid = .ok (db, false)) ∧
    (∀ uid, project.created_by = uid → unassignUser db pid uid = .error 400) := by
  refine ⟨?_, ?_, ?_⟩
  · intro uid user hu ha
    have hid := findUser_id hu
    simp [assignUser, hp, hu, hid, ha]
  · intro uid hne ha
    have hbeq : (project.created_by == uid) = false := by simpa using hne
    simp only [unassignUser, hp, hbeq, Bool.false_eq_true, if_false]
    cases hu : findUser db uid with
    | none => rfl
    | some user =>
      have hid := findUser_id hu
      simp [hid, ha]
  · intro uid he
    simp [unassignUser, hp, he]

/-- C7, witness: instantiating the idempotence theorem on `dbMain`, where
`u1` created `p1` and is its only assignee. -/
theorem c7_assignment_idempotent_witness :
    findProject dbMain "p1" = some pOne ∧
    ((∀ uid user, findUser dbMain uid = some user →
        isAssigned dbMain "p1" uid = true →
        assignUser dbMain "p1" uid = .ok (dbMain, true)) ∧
    (∀ uid, pOne.created_by ≠ uid → isAssigned dbMain "p1" uid = false →
        unassignUser dbMain "p1" uid = .ok (dbMain, false)) ∧
    (∀ uid, pOne.created_by = uid → unassignUser dbMain "p1" uid = .error 400)) :=
  ⟨rfl, c7_assignment_idempotent dbMain "p1" pOne rfl⟩

/-! ### C9 -/

/-- C9: immediately after `create_project` by an existing user, the new
project's assigned-user set contains the creating user, and the project
records that user as its creator. -/
theorem c9_creator_assigned_at_creation (db : DB) (pid pname cb : String)
    (user : User) (hu : findUser db cb = some user) :
    isAssigned (createProject db pid pname cb).1 pid cb = true ∧
    (createProject db pid pname cb).2.created_by = cb := by
  have hid := findUser_id hu
  constructor
  · simp [createProject, isAssigned, hu, hid]
  · rfl

/-- C9, witness: `u2` creates a project `p2` in `dbMain` and is assigned to
it at creation. -/
theorem c9_creator_assigned_at_creation_witness :
    findUser dbMain "u2" = some uAnn2 ∧
    (isAssigned (createProject dbMain "p2" "other" "u2").1 "p2" "u2" = true ∧
      (createProject dbMain "p2" "other" "u2").2.created_by = "u2") :=
  ⟨rfl, c9_creator_assigned_at_creation dbMain "p2" "other" "u2" uAnn2 rfl⟩

/-! ### C5 -/

/-- Unfolding a successful `saveAnnotations`: the returned rows are exactly
the built ones, the annotation table is the old table minus the image's rows
plus the new ones, and the image table is updated as the code does. -/
theorem saveAnnotations_ok {db : DB} {iid : String}
    {anns : List AnnotationCreate} {ids : List String} {cb : String}
    {db' : DB} {out : List Annotation}
    (h : saveAnnotations db iid anns ids cb = .ok (db', out)) :
    out = (ids.zip anns).map (fun p => buildAnnotation iid cb p.1 p.2) ∧
    db'.annotations =
      db.annotations.filter (fun a => !(a.image_id == iid)) ++ out ∧
    ∃ image, findImage db iid = some image ∧
      db'.images = (if anns.isEmpty then db.images
        else db.images.map
          (fun i => if i.id == image.id then { i with status := .completed }
                    else i)) := by
  cases himg : findImage db iid with
  | none => simp [saveAnnotations, himg] at h
  | some image =>
    simp only [saveAnnotations, himg, Except.ok.injEq, Prod.mk.injEq] at h
    obtain ⟨hdb, hout⟩ := h
    subst hdb
    refine ⟨hout.symm, by rw [hout], image, rfl, rfl⟩

/-- After a successful `saveAnnotations`, the image's queryable annotation
set is exactly the returned (newly saved) set. -/
theorem annotationsFor_save {db : DB} {iid : String}
    {anns : List AnnotationCreate} {ids : List String} {cb : String}
    {db' : DB} {out : List Annotation}
    (h : saveAnnotations db iid anns ids cb = .ok (db', out)) :
    annotationsFor db' iid = out := by
  obtain ⟨hout, hanns, -⟩ := saveAnnotations_ok h
  rw [annotationsFor, hanns, List.filter_append]
  have h1 : (db.annotations.filter (fun a => !(a.image_id == iid))).filter
      (fun a => a.image_id == iid) = [] := by
    rw [List.filter_filter]
    refine List.filter_eq_nil_iff.mpr ?_
    intro a _
    cases hb : (a.image_id == iid) <;> simp [hb]
  have h2 : out.filter (fun a => a.image_id == iid) = out := by
    refine List.filter_eq_self.mpr ?_
    intro a ha
    rw [hout] at ha
    obtain ⟨p, -, rfl⟩ := List.mem_map.mp ha
    simp [ buildAnnotation]
  rw [h1, h2, List.nil_append]

/-- After a successful `saveAnnotations` of a non-empty request, the image's
status reads back as completed (and an empty request leaves it unchanged). -/
theorem findImage_save {db : DB} {iid : String}
    {anns : List AnnotationCreate} {ids : List String} {cb : String}
    {db' : DB} {out : List Annotation} {image : Image}
    (h : saveAnnotations db iid anns ids cb = .ok (db', out))
    (himg : findImage db iid = some image) :
    findImage db' iid =
      some (if anns.isEmpty then image
            else { image with status := .completed }) := by
  obtain ⟨-, -, image', himg', hims⟩ := saveAnnotations_ok h
  rw [himg] at himg'
  injection himg' with he
  subst he
  by_cases hE : anns.isEmpty
  · rw [findImage, hims, if_pos hE, if_pos hE, ← findImage]
    exact himg
  · rw [findImage, hims, if_neg hE, if_neg hE, List.find?_map]
    have hcomp : ((fun i : Image => i.id == iid) ∘
        (fun i => if i.id == image.id then { i with status := ImageStatus.completed }
                  else i)) = fun i : Image => i.id == iid := by
      funext i
      simp only [Function.comp]
      split <;> rfl
    rw [hcomp]
    have hfind : db.images.find? (fun i => i.id == iid) = some image := himg
    rw [hfind]
    simp

/-- C5: a successful save makes exactly the newly saved set queryable (the
prior rows for the image are gone), a non-empty save flips the image's
status to completed, and a second save leaves only the second set
queryable. -/
theorem c5_save_replaces_and_completes (db : DB) (iid : String)
    (image : Image) (himg : findImage db iid = some image)
    (anns₁ anns₂ : List AnnotationCreate) (ids₁ ids₂ : List String)
    (cb₁ cb₂ : String) (db₁ db₂ : DB) (out₁ out₂ : List Annotation)
    (h1 : saveAnnotations db iid anns₁ ids₁ cb₁ = .ok (db₁, out₁))
    (h2 : saveAnnotations db₁ iid anns₂ ids₂ cb₂ = .ok (db₂, out₂)) :
    annotationsFor db₁ iid = out₁ ∧
    out₁ = (ids₁.zip anns₁).map (fun p => buildAnnotation iid cb₁ p.1 p.2) ∧
    (anns₁ ≠ [] → findImage db₁ iid = some { image with status := .completed }) ∧
    annotationsFor db₂ iid = out₂ := by
  obtain ⟨hout, -, -⟩ := saveAnnotations_ok h1
  refine ⟨annotationsFor_save h1, hout, ?_, annotationsFor_save h2⟩
  intro hne
  have := findImage_save h1 himg
  rwa [if_neg (by simpa using hne)] at this

/-- A second annotation request body: box (10, 20, 30, 40). -/
def acTwo : AnnotationCreate :=
  { class_id := 1, class_name := "car", color := "#00ff00"
    x := 10, y := 20, width := 30, height := 40 }

/-- The row the first concrete save inserts. -/
def annNew1 : Annotation := buildAnnotation "i1" "u1" "n1" acOne

/-- The row the second concrete save inserts. -/
def annNew2 : Annotation := buildAnnotation "i1" "u1" "n2" acTwo

/-- `dbMain` after saving `[acOne]` on `i1`. -/
def dbAfterSave1 : DB :=
  { dbMain with annotations := [annNew1]
                images := [{ iOne with status := .completed }] }

/-- `dbAfterSave1` after saving `[acTwo]` on `i1`. -/
def dbAfterSave2 : DB :=
  { dbAfterSave1 with annotations := [annNew2]
                      images := [{ iOne with status := .completed }] }

/-- C5, witness: two concrete saves on `i1` in `dbMain`; only the second set
remains queryable and the image reads back completed. -/
theorem c5_save_replaces_and_completes_witness :
    findImage dbMain "i1" = some iOne ∧
    saveAnnotations dbMain "i1" [acOne] ["n1"] "u1" =
      .ok (dbAfterSave1, [annNew1]) ∧
    saveAnnotations dbAfterSave1 "i1" [acTwo] ["n2"] "u1" =
      .ok (dbAfterSave2, [annNew2]) ∧
    (annotationsFor dbAfterSave1 "i1" = [annNew1] ∧
      [annNew1] = ((["n1"].zip [acOne]).map
        (fun p => buildAnnotation "i1" "u1" p.1 p.2)) ∧
      (([acOne] : List AnnotationCreate) ≠ [] →
        findImage dbAfterSave1 "i1" = some { iOne with status := .completed }) ∧
      annotationsFor dbAfterSave2 "i1" = [annNew2]) :=
  ⟨rfl, rfl, rfl,
    c5_save_replaces_and_completes dbMain "i1" iOne rfl [acOne] [acTwo]
      ["n1"] ["n2"] "u1" "u1" dbAfterSave1 dbAfterSave2 [annNew1] [annNew2]
      rfl rfl⟩

/-! ### C10 -/

/-- A constantly-`none` `filterMap` yields the empty list. -/
theorem filterMap_const_none {α β : Type} (l : List α) :
    l.filterMap (fun _ => (none : Option β)) = [] := by
  induction l with
  | nil => rfl
  | cons a l ih => simp [List.filterMap_cons, ih]

/-- A `filterMap` that always succeeds is a `map`. -/
theorem filterMap_some_eq_map {α β : Type} (g : α → β) (l : List α) :
    l.filterMap (fun a => some (g a)) = l.map g := by
  induction l with
  | nil => rfl
  | cons a l ih => simp [List.filterMap_cons, ih]

/-- C10: the export loop emits an annotation only when the owning image's
dimensions are both non-null and non-zero (Python truthiness of
`image.width and image.height`); otherwise the annotation is silently
excluded.  When lines are emitted the divisors are provably non-zero, and
the served file is exactly the newline-join of those lines. -/
theorem c10_lines_only_with_nonzero_dims (db : DB) (iid : String) (u : User)
    (image : Image) (hacc : getAccessibleImage db iid u = .ok image) :
    (dimsTruthy image = false → yoloLines db image = []) ∧
    (dimsTruthy image = true → ∃ w h, image.width = some w ∧
      image.height = some h ∧ (w : ℚ) ≠ 0 ∧ (h : ℚ) ≠ 0 ∧
      yoloLines db image =
        (annotationsFor db image.id).map
          (fun a => yoloLine a (w : ℚ) (h : ℚ))) ∧
    (∀ content, downloadAnnotations db iid u = .ok content →
      content = String.intercalate "\n" (yoloLines db image)) := by
  refine ⟨?_, ?_, ?_⟩
  · intro hfalse
    cases hw : image.width with
    | none => simp [yoloLines, hw, filterMap_const_none]
    | some w =>
      cases hh : image.height with
      | none => simp [yoloLines, hw, hh, filterMap_const_none]
      | some hgt =>
        have hcond : (w != 0 && hgt != 0) = false := by
          simpa [dimsTruthy, hw, hh] using hfalse
        simp [yoloLines, hw, hh, hcond, filterMap_const_none]
  · intro htrue
    cases hw : image.width with
    | none => simp [dimsTruthy, hw] at htrue
    | some w =>
      cases hh : image.height with
      | none => simp [dimsTruthy, hw, hh] at htrue
      | some hgt =>
        have hcond : (w != 0 && hgt != 0) = true := by
          simpa [dimsTruthy, hw, hh] using htrue
        obtain ⟨hw0, hh0⟩ := Bool.and_eq_true_iff.mp hcond
        have hw0' : w ≠ 0 := by simpa using hw0
        have hh0' : hgt ≠ 0 := by simpa using hh0
        refine ⟨w, hgt, rfl, rfl, ?_, ?_, ?_⟩
        · exact_mod_cast Int.cast_ne_zero.mpr hw0'
        · exact_mod_cast Int.cast_ne_zero.mpr hh0'
        · simp only [yoloLines, hw, hh, hcond, if_true]
          exact filterMap_some_eq_map _ _
  · intro content hdl
    simp only [downloadAnnotations, hacc] at hdl
    by_cases he : (annotationsFor db iid).isEmpty
    · simp [he] at hdl
    · simp only [he, Bool.false_eq_true, if_false] at hdl
      exact (Except.ok.injEq _ _ ▸ hdl).symm

/-- C10, witness: the export of `i1` in `dbMain` as admin, where both
dimensions are 100. -/
theorem c10_lines_only_with_nonzero_dims_witness :
    getAccessibleImage dbMain "i1" uAdmin = .ok iOne ∧
    ((dimsTruthy iOne = false → yoloLines dbMain iOne = []) ∧
    (dimsTruthy iOne = true → ∃ w h, iOne.width = some w ∧
      iOne.height = some h ∧ (w : ℚ) ≠ 0 ∧ (h : ℚ) ≠ 0 ∧
      yoloLines dbMain iOne =
        (annotationsFor dbMain iOne.id).map
          (fun a => yoloLine a (w : ℚ) (h : ℚ))) ∧
    (∀ content, downloadAnnotations dbMain "i1" uAdmin = .ok content →
      content = String.intercalate "\n" (yoloLines dbMain iOne))) :=
  ⟨rfl, c10_lines_only_with_nonzero_dims dbMain "i1" uAdmin iOne rfl⟩

/-! ### C3 -/

/-- Evaluation of `fmt6` from a computed non-negative rounding. -/
theorem fmt6_of_round_nonneg (q : ℚ) (m : ℕ)
    (h : round (q * 1000000) = (m : ℤ)) :
    fmt6 q = toString (m / 1000000) ++ "." ++ pad6 (toString (m % 1000000)) := by
  have h0 : ¬((m : ℤ) < 0) := by
    simp
  simp [fmt6, h, h0]

/-- Evaluation of `fmt6` from a computed negative rounding. -/
theorem fmt6_of_round_neg (q : ℚ) (m : ℕ) (hm : 0 < m)
    (h : round (q * 1000000) = -(m : ℤ)) :
    fmt6 q =
      "-" ++ toString (m / 1000000) ++ "." ++ pad6 (toString (m % 1000000)) := by
  have h0 : -((m : ℤ)) < 0 := by
    simpa using hm
  simp [fmt6, h, h0]

/-- An out-of-bounds annotation on `i1`: box (-50, 0, 200, 100), wider than
the image. -/
def aWide : Annotation :=
  { id := "a2", image_id := "i1", class_id := 1, class_name := "truck"
    color := "#0000ff", x := -50, y := 0, width := 200, height := 100
    created_by := "u1" }

/-- An annotation with negative coordinates on `i1`: box (-100, -100, 50, 100). -/
def aNeg : Annotation :=
  { id := "a3", image_id := "i1", class_id := 2, class_name := "bird"
    color := "#00ffff", x := -100, y := -100, width := 50, height := 100
    created_by := "u1" }

/-- A database whose image `i1` (100×100) carries the example box plus two
out-of-bounds boxes. -/
def dbC3 : DB :=
  { users := [uAnn1], projects := [pOne], project_assignments := [("p1", "u1")]
    images := [iOne], annotations := [aStored, aWide, aNeg] }

/-- C3: each exported line is the `:.6f`-formatted template over the
normalization formulas, and on the concrete database the export of `i1`
yields the example line `0 0.250000 0.500000 0.500000 1.000000` for box
(0, 0, 50, 100) on the 100×100 image, newline-joined with the lines of the
two out-of-bounds boxes, which pass through arithmetically unclamped
(`2.000000`, `-0.750000`). -/
theorem c3_yolo_export_format :
    (∀ (ann : Annotation) (W H : ℚ),
      yoloLine ann W H =
        toString ann.class_id ++ " " ++
          fmt6 ((ann.x + ann.width / 2) / W) ++ " " ++
          fmt6 ((ann.y + ann.height / 2) / H) ++ " " ++
          fmt6 (ann.width / W) ++ " " ++ fmt6 (ann.height / H)) ∧
    downloadAnnotations dbC3 "i1" uAdmin =
      .ok ("0 0.250000 0.500000 0.500000 1.000000\n" ++
           "1 0.500000 0.500000 2.000000 1.000000\n" ++
           "2 -0.750000 -0.500000 0.500000 1.000000") := by
  constructor
  · intro ann W H
    rfl
  · have l1 : yoloLine aStored ((100 : ℤ) : ℚ) ((100 : ℤ) : ℚ) =
        "0 0.250000 0.500000 0.500000 1.000000" := by
      rw [yoloLine, centerX, centerY, normWidth, normHeight,
        fmt6_of_round_nonneg ((aStored.x + aStored.width / 2) / ((100 : ℤ) : ℚ))
          250000 (by norm_num [aStored, round_eq]),
        fmt6_of_round_nonneg ((aStored.y + aStored.height / 2) / ((100 : ℤ) : ℚ))
          500000 (by norm_num [aStored, round_eq]),
        fmt6_of_round_nonneg (aStored.width / ((100 : ℤ) : ℚ))
          500000 (by norm_num [aStored, round_eq]),
        fmt6_of_round_nonneg (aStored.height / ((100 : ℤ) : ℚ))
          1000000 (by norm_num [aStored, round_eq])]
      rfl
    have l2 : yoloLine aWide ((100 : ℤ) : ℚ) ((100 : ℤ) : ℚ) =
        "1 0.500000 0.500000 2.000000 1.000000" := by
      rw [yoloLine, centerX, centerY, normWidth, normHeight,
        fmt6_of_round_nonneg ((aWide.x + aWide.width / 2) / ((100 : ℤ) : ℚ))
          500000 (by norm_num [aWide, round_eq]),
        fmt6_of_round_nonneg ((aWide.y + aWide.height / 2) / ((100 : ℤ) : ℚ))
          500000 (by norm_num [aWide, round_eq]),
        fmt6_of_round_nonneg (aWide.width / ((100 : ℤ) : ℚ))
          2000000 (by norm_num [aWide, round_eq]),
        fmt6_of_round_nonneg (aWide.height / ((100 : ℤ) : ℚ))
          1000000 (by norm_num [aWide, round_eq])]
      rfl
    have l3 : yoloLine aNeg ((100 : ℤ) : ℚ) ((100 : ℤ) : ℚ) =
        "2 -0.750000 -0.500000 0.500000 1.000000" := by
      rw [yoloLine, centerX, centerY, normWidth, normHeight,
        fmt6_of_round_neg ((aNeg.x + aNeg.width / 2) / ((100 : ℤ) : ℚ))
          750000 (by norm_num) (by norm_num [aNeg, round_eq]),
        fmt6_of_round_neg ((aNeg.y + aNeg.height / 2) / ((100 : ℤ) : ℚ))
          500000 (by norm_num) (by norm_num [aNeg, round_eq]),
        fmt6_of_round_nonneg (aNeg.width / ((100 : ℤ) : ℚ))
          500000 (by norm_num [aNeg, round_eq]),
        fmt6_of_round_nonneg (aNeg.height / ((100 : ℤ) : ℚ))
          1000000 (by norm_num [aNeg, round_eq])]
      rfl
    have hpipe : downloadAnnotations dbC3 "i1" uAdmin =
        .ok (String.intercalate "\n"
          [yoloLine aStored ((100 : ℤ) : ℚ) ((100 : ℤ) : ℚ),
           yoloLine aWide ((100 : ℤ) : ℚ) ((100 : ℤ) : ℚ),
           yoloLine aNeg ((100 : ℤ) : ℚ) ((100 : ℤ) : ℚ)]) := rfl
    rw [hpipe, l1, l2, l3]
    rfl

/-! ### C8 -/

/-- The content-type gate of the upload loop:
`file.content_type and file.content_type.startswith('image/')`. -/
def isImageFile (f : UploadFileReq) : Bool :=
  match f.content_type with
  | none => false
  | some ct => ct.startsWith "image/"

/-- A file whose declared content type fails the image gate is recorded in
the per-file failure list of the upload loop. -/
theorem mem_failed_of_bad_type (pid : String)
    (files : List (UploadFileReq × String)) :
    ∀ f id, (f, id) ∈ files → isImageFile f = false →
      f.filename ∈ (processUploadFiles pid files).2.1 := by
  induction files with
  | nil =>
    intro f id h _
    simp at h
  | cons hd tl ih =>
    intro f id hmem hbad
    obtain ⟨g, gid⟩ := hd
    rcases he : processUploadFiles pid tl with ⟨paths, failed, recs⟩
    rcases List.mem_cons.mp hmem with heq | htl
    · obtain ⟨rfl, rfl⟩ := Prod.mk.injEq .. ▸ heq
      cases hct : f.content_type with
      | none => simp [processUploadFiles, hct, he]
      | some ct =>
        have hst : ct.startsWith "image/" = false := by
          simpa [isImageFile, hct] using hbad
        simp [processUploadFiles, hct, he, hst]
    · have htail := ih f id htl hbad
      rw [he] at htail
      cases hct : g.content_type with
      | none => simp [processUploadFiles, hct, he, htail]
      | some ct =>
        by_cases hst : ct.startsWith "image/"
        · by_cases hwk : g.writeOk
          · simp [processUploadFiles, hct, he, hst, hwk, htail]
          · simp [processUploadFiles, hct, he, hst, hwk, htail]
        · simp [processUploadFiles, hct, he, hst, htail]

/-- C8: per-file content-type rejections are reported without aborting the
batch — with a successful commit the request returns exactly the staged rows
(the empty list when every file was rejected, no error) — and when the final
commit fails the whole request fails with 500, no image row is persisted
(the database is unchanged), and every file written in this batch is removed
from disk, so a disk of fresh paths is restored exactly. -/
theorem c8_upload_rejects_and_cleanup (db : DB) (disk : List String)
    (pid : String) (project : Project) (hp : findProject db pid = some project)
    (files : List (UploadFileReq × String)) :
    (∀ f id, (f, id) ∈ files → isImageFile f = false →
      f.filename ∈ (uploadImages db disk pid files true).failedFiles) ∧
    (uploadImages db disk pid files true).result =
      .ok (processUploadFiles pid files).2.2 ∧
    ((processUploadFiles pid files).2.2 ≠ [] →
      (uploadImages db disk pid files false).db = db ∧
      (uploadImages db disk pid files false).result = .error 500 ∧
      ((∀ p ∈ (processUploadFiles pid files).1, p ∉ disk) →
        (uploadImages db disk pid files false).disk = disk)) := by
  rcases he : processUploadFiles pid files with ⟨paths, failed, recs⟩
  refine ⟨?_, ?_, ?_⟩
  · intro f id hmem hbad
    have := mem_failed_of_bad_type pid files f id hmem hbad
    rw [he] at this
    by_cases hr : recs.isEmpty <;>
      simp [uploadImages, hp, he, hr, this]
  · by_cases hr : recs.isEmpty
    · have hnil : recs = [] := by simpa using hr
      simp [uploadImages, hp, he, hr, hnil]
    · simp [uploadImages, hp, he, hr]
  · intro hne
    have hr : recs.isEmpty = false := by
      simpa using hne
    refine ⟨by simp [uploadImages, hp, he, hr], by simp [uploadImages, hp, he, hr], ?_⟩
    intro hfresh
    have hdisk : (uploadImages db disk pid files false).disk =
        (disk ++ paths).filter (fun p => !(paths.contains p)) := by
      simp [uploadImages, hp, he, hr]
    rw [hdisk, List.filter_append]
    have h1 : disk.filter (fun p => !(paths.contains p)) = disk := by
      refine List.filter_eq_self.mpr ?_
      intro d hd
      have : d ∉ paths := fun hdp => hfresh d hdp hd
      simp [List.contains, this]
    have h2 : paths.filter (fun p => !(paths.contains p)) = [] := by
      refine List.filter_eq_nil_iff.mpr ?_
      intro p hp'
      simp [List.contains, hp']
    rw [h1, h2, List.append_nil]

/-- A well-formed upload file: declared `image/png`, written successfully,
100×80 pixels. -/
def fGood : UploadFileReq :=
  { filename := "cat.PNG", content_type := some "image/png", writeOk := true
    dims := some (100, 80) }

/-- A rejected upload file: declared `text/plain`. -/
def fBad : UploadFileReq :=
  { filename := "notes.txt", content_type := some "text/plain", writeOk := true
    dims := none }

/-- C8, witness: a two-file batch on `p1` with one good and one rejected
file, against a disk holding one unrelated path. -/
theorem c8_upload_rejects_and_cleanup_witness :
    findProject dbMain "p1" = some pOne ∧
    ((∀ f id, (f, id) ∈ [(fGood, "g1"), (fBad, "b1")] → isImageFile f = false →
      f.filename ∈
        (uploadImages dbMain ["other"] "p1" [(fGood, "g1"), (fBad, "b1")]
          true).failedFiles) ∧
    (uploadImages dbMain ["other"] "p1" [(fGood, "g1"), (fBad, "b1")]
        true).result =
      .ok (processUploadFiles "p1" [(fGood, "g1"), (fBad, "b1")]).2.2 ∧
    ((processUploadFiles "p1" [(fGood, "g1"), (fBad, "b1")]).2.2 ≠ [] →
      (uploadImages dbMain ["other"] "p1" [(fGood, "g1"), (fBad, "b1")]
          false).db = dbMain ∧
      (uploadImages dbMain ["other"] "p1" [(fGood, "g1"), (fBad, "b1")]
          false).result = .error 500 ∧
      ((∀ p ∈ (processUploadFiles "p1" [(fGood, "g1"), (fBad, "b1")]).1,
          p ∉ (["other"] : List String)) →
        (uploadImages dbMain ["other"] "p1" [(fGood, "g1"), (fBad, "b1")]
            false).disk = ["other"]))) :=
  ⟨rfl, c8_upload_rejects_and_cleanup dbMain ["other"] "p1" pOne rfl
    [(fGood, "g1"), (fBad, "b1")]⟩

end YoloBackend
